import Mathlib

/-!
Verification of the REISEPLANLEGGER trip-planning core.

This file shallow-embeds the trip-plan generation pipeline
(`src/lib/services/trip-planner.ts` second document: `generateTripPlan`,
`generatePlanWithRules`, `generateDayPlan`, `generateSafetyNotes`,
`generatePackingList`), the OpenAI response parsing layer
(`src/lib/services/openai-client.ts`: `callOpenAIForTripPlan`,
`parseOpenAIResponse`) and the HTTP handlers for `POST /api/trips`,
`GET /api/trips/[id]` and `GET /api/trips/share/[shareableId]`.

Modelling conventions:
- JavaScript `Date` values are modelled as proleptic-Gregorian calendar
  dates (`CalDate`); `date.setDate(date.getDate() + i)` becomes `addDays`,
  and `toISOString().split('T')[0]` becomes `formatISO`.
- JSON numbers are modelled as integers (`Int`); the trip domain only uses
  integer NOK amounts, day numbers and probabilities.
- External effects (the OpenAI HTTP call, the Prisma database, wall-clock
  time, cuid generation) are passed in as explicit parameters.
-/

-- ===========================================================================
-- Data model (src/types/trip.ts and src/types/database.ts)
-- ===========================================================================

/-- Season type from `src/types/database.ts`: `'summer' | 'winter' | 'polar-night'`. -/
inductive Season where
  | summer
  | winter
  | polarNight
deriving DecidableEq

/-- Budget levels from `src/types/trip.ts`: `'low' | 'medium' | 'high'`. -/
inductive BudgetLevel where
  | low
  | medium
  | high
deriving DecidableEq

/-- Transport modes from `src/types/trip.ts`: `'car' | 'no-car'`. -/
inductive TransportMode where
  | car
  | noCar
deriving DecidableEq

/-- Difficulty levels from `src/types/trip.ts`: `'easy' | 'moderate' | 'active'`. -/
inductive DifficultyLevel where
  | easy
  | moderate
  | active
deriving DecidableEq

/-- Calendar date, the model of a JavaScript `Date` (date component, UTC). -/
structure CalDate where
  year : Int
  month : Int
  day : Int
deriving DecidableEq

/-- TripPreferences from `src/types/trip.ts`.  Interests are kept as plain
strings (the TS `Interest` union is a string enum). -/
structure TripPreferences where
  days : Int
  budget : BudgetLevel
  interests : List String
  transport : TransportMode
  difficulty : DifficultyLevel
  language : Option String := none
  startDate : Option CalDate := none
  groupSize : Option Int := none
deriving DecidableEq

/-- Activity from `src/types/trip.ts`. -/
structure Activity where
  time : String
  title : String
  description : String
  location : String
  cost : Int
  duration : String
  bookingRequired : Bool
deriving DecidableEq

/-- AuroraInfo from `src/types/trip.ts`. -/
structure AuroraInfo where
  probability : Int
  bestTime : String
  location : String
deriving DecidableEq

/-- DiningInfo from `src/types/trip.ts` (both fields optional). -/
structure DiningInfo where
  lunch : Option String := none
  dinner : Option String := none
deriving DecidableEq

/-- DayPlan from `src/types/trip.ts`. -/
structure DayPlan where
  day : Int
  date : String
  theme : String
  activities : List Activity
  dining : DiningInfo
  aurora : Option AuroraInfo := none
deriving DecidableEq

/-- TripPlan from `src/types/trip.ts`. -/
structure TripPlan where
  summary : String
  days : List DayPlan
  totalCost : Int
  safetyNotes : List String
  packingList : List String
  recommendations : List String
deriving DecidableEq

-- ===========================================================================
-- Calendar arithmetic (model of JavaScript Date day arithmetic)
-- ===========================================================================

/-- Days since 1970-01-01 of a civil date (standard civil-from-days
algorithm; all divisions act on non-negative operands). -/
def daysFromCivil (d : CalDate) : Int :=
  let y := if d.month ≤ 2 then d.year - 1 else d.year
  let era := (if 0 ≤ y then y else y - 399) / 400
  let yoe := y - era * 400
  let mp := (d.month + 9) % 12
  let doy := (153 * mp + 2) / 5 + d.day - 1
  let doe := yoe * 365 + yoe / 4 - yoe / 100 + doy
  era * 146097 + doe - 719468

/-- Civil date of a number of days since 1970-01-01 (inverse of
`daysFromCivil`). -/
def civilFromDays (z0 : Int) : CalDate :=
  let z := z0 + 719468
  let era := (if 0 ≤ z then z else z - 146096) / 146097
  let doe := z - era * 146097
  let yoe := (doe - doe / 1460 + doe / 36524 - doe / 146096) / 365
  let y := yoe + era * 400
  let doy := doe - (365 * yoe + yoe / 4 - yoe / 100)
  let mp := (5 * doy + 2) / 153
  let dd := doy - (153 * mp + 2) / 5 + 1
  let mm := if mp < 10 then mp + 3 else mp - 9
  ⟨if mm ≤ 2 then y + 1 else y, mm, dd⟩

/-- Model of `const date = new Date(startDate); date.setDate(date.getDate() + i)`. -/
def addDays (d : CalDate) (n : Int) : CalDate :=
  civilFromDays (daysFromCivil d + n)

/-- Zero-pad a non-negative integer to a given width. -/
def padNum (width : Nat) (n : Int) : String :=
  let s := toString n
  String.mk (List.replicate (width - s.length) '0') ++ s

/-- Model of `date.toISOString().split('T')[0]`: the `YYYY-MM-DD` rendering
of a date. -/
def formatISO (d : CalDate) : String :=
  padNum 4 d.year ++ "-" ++ padNum 2 d.month ++ "-" ++ padNum 2 d.day

-- ===========================================================================
-- Season resolution and season display metadata
-- ===========================================================================

/-- Season display metadata carried by each season entry of the `SEASONS`
constant (name, description, weather, highlights). -/
structure SeasonConfig where
  nameNo : String
  description : String
  weatherInfo : String
  highlights : List String

/-- Modelled from the spec: the seasons constants module
(`@/lib/constants/seasons`) is not under `src/`.  Spec section 3: each
season carries static display metadata (name, highlights, weather
description) used only for prompt/context construction, not for plan
logic branching. -/
def SEASONS : Season → SeasonConfig
  | .summer => ⟨"Sommer", "Midnattsol og lyse netter", "10-18 °C, mye dagslys", ["Midnattsol", "Fjordcruise", "Fotturer"]⟩
  | .winter => ⟨"Vinter", "Snø og nordlys", "-8-2 °C, snø og kulde", ["Nordlys", "Hundekjøring", "Skiturer"]⟩
  | .polarNight => ⟨"Mørketid", "Polarnatt og nordlys", "-6-0 °C, ingen direkte sol", ["Nordlys", "Polarnatt", "Kulturliv"]⟩

/-- Modelled from the spec: `getSeasonFromDate` is exported by
`@/lib/constants/seasons`, which is not under `src/` (only its callers
are).  Spec section 4.1: pure total function of the calendar month of its
argument; months 5-8 map to summer, months 11 and 1 to polar-night,
months 12 and 2 to winter, and all other months (3, 4, 9, 10) to winter
by default policy. -/
def getSeasonFromDate (date : CalDate) : Season :=
  if 5 ≤ date.month ∧ date.month ≤ 8 then .summer
  else if date.month = 11 ∨ date.month = 1 then .polarNight
  else .winter

-- ===========================================================================
-- Rule-based plan generator (trip-planner.ts lines 676-883)
-- ===========================================================================

/-- Model of `generateDayPlan` (trip-planner.ts lines 733-804): one day of
the rule-based itinerary. -/
def generateDayPlan (dayNumber : Int) (date : CalDate) (preferences : TripPreferences)
    (season : Season) : DayPlan :=
  let isFirstDay := dayNumber = 1
  let morning : List Activity :=
    if isFirstDay then
      [{ time := "10:00"
         title := "Fjellheisen Cable Car"
         description := "Start med panoramautsikt over Tromsø fra 421 meter over havet"
         location := "Fjellheisen, Solliveien 12"
         cost := 200
         duration := "1.5 timer"
         bookingRequired := false }]
    else []
  let lunchSpot := "Fiskekompaniet"
  let afternoon : Activity :=
    { time := "14:30"
      title := if season = .summer then "Fjord Cruise" else "Ishavskatedralen Visit"
      description :=
        if season = .summer then
          "Opplev midnattsol fra fjorden med mulighet for havørn og hval"
        else "Besøk den ikoniske Arktiske Katedralen"
      location := if season = .summer then "Prostneset Havn" else "Tromsdalen"
      cost := if season = .summer then 800 else 100
      duration := if season = .summer then "3 timer" else "1 time"
      bookingRequired := season == .summer }
  let dinnerSpot := "Emma\u0027s Drømmekjøkken"
  let evening : List Activity :=
    if season = .winter ∨ season = .polarNight then
      [{ time := "21:00"
         title := "Northern Lights Chase"
         description := "Profesjonell guide tar deg til beste spots for nordlys"
         location := "Henting fra hotell"
         cost := 1200
         duration := "4-6 timer"
         bookingRequired := true }]
    else []
  { day := dayNumber
    date := formatISO date
    theme := if isFirstDay then "Velkommen til Tromsø" else "Dag " ++ toString dayNumber
    activities := morning ++ [afternoon] ++ evening
    dining := { lunch := some lunchSpot, dinner := some dinnerSpot }
    aurora :=
      if season = .winter ∨ season = .polarNight then
        some { probability := 65, bestTime := "22:00", location := "Utenfor byen (mørk himmel)" }
      else none }

/-- Model of `generateSafetyNotes` (trip-planner.ts lines 809-840). -/
def generateSafetyNotes (season : Season) (preferences : TripPreferences) : List String :=
  let notes := ["Ha alltid med fulladet telefon", "Del reiserute med noen du stoler på"]
  let notes := notes ++
    (if season = .winter ∨ season = .polarNight then
      ["Kle deg i lag - temperaturen kan variere",
       "Pass på glatte veier og fortau",
       "Mørketid: bruk refleks og lykt når du går ute",
       "Sjekk værvarsling før utendørsaktiviteter"]
    else [])
  let notes := notes ++
    (if season = .summer then
      ["Midnattsol: bruk solbriller og solkrem",
       "Myggspray anbefales for fotturer",
       "Ha med varme klær selv om det er sommer"]
    else [])
  notes ++
    (if preferences.transport = .car then
      ["Vinterdekk er påkrevd november-april",
       "Kjør forsiktig i arktiske forhold"]
    else [])

/-- Model of `generatePackingList` (trip-planner.ts lines 845-883). -/
def generatePackingList (season : Season) (preferences : TripPreferences) : List String :=
  let items := ["Pass og ID", "Bankkort og litt kontanter", "Telefon og lader", "Kamera"]
  let items := items ++
    (if season = .winter ∨ season = .polarNight then
      ["Varm vinterjakke",
       "Vintersko med godt grep",
       "Votter, lue, skjerf",
       "Termisk undertøy",
       "Varme sokker",
       "Solbriller (snørefleks)"]
    else [])
  let items := items ++
    (if season = .summer then
      ["Vindtett jakke",
       "Gode tursko",
       "Solbriller og solkrem",
       "Myggspray",
       "Lette og varme klær (lag på lag)"]
    else [])
  let items := items ++
    (if preferences.interests.contains "photography" then
      ["Tripod for kamera", "Ekstra batterier (kulde tapper batterier)"]
    else [])
  items ++
    (if preferences.interests.contains "hiking" then
      ["Tursko", "Sekk", "Matboks og drikkeflaske"]
    else [])

/-- Model of `generatePlanWithRules` (trip-planner.ts lines 680-728): the
deterministic rule-based fallback generator.  The `context` string is
received but never used, exactly as in the source. -/
def generatePlanWithRules (preferences : TripPreferences) (season : Season)
    (startDate : CalDate) (context : String) : TripPlan :=
  let days := (List.range preferences.days.toNat).map
    (fun i => generateDayPlan (Int.ofNat i + 1) (addDays startDate (Int.ofNat i))
      preferences season)
  let totalCost := days.foldl
    (fun sum day => sum + day.activities.foldl (fun daySum activity => daySum + activity.cost) 0) 0
  let summary := "Din " ++ toString preferences.days ++ "-dagers "
    ++ (SEASONS season).nameNo.toLower
    ++ "-opplevelse i Tromsø kombinerer "
    ++ String.intercalate ", " (preferences.interests.take 3)
    ++ " med lokal kultur og naturopplevelser."
  let safetyNotes := generateSafetyNotes season preferences
  let packingList := generatePackingList season preferences
  let recommendations :=
    ["Book nordlys-turer minst 2-3 dager i forveien",
     "Sjekk værmelding daglig - arktisk vær kan endre seg raskt",
     "Last ned offline kart for Tromsø-området",
     "Ta med kontanter - ikke alle steder tar kort"]
  { summary, days, totalCost, safetyNotes, packingList, recommendations }

-- ===========================================================================
-- JSON values (model of the dynamic objects produced by JSON.parse)
-- ===========================================================================

/-- JSON value.  Numbers are modelled as integers (see the header note). -/
inductive Json where
  | null
  | bool (b : Bool)
  | num (n : Int)
  | str (s : String)
  | arr (elems : List Json)
  | obj (fields : List (String × Json))

/-- Property access `value.key` on a dynamic object: `none` models
`undefined`.  For duplicate keys the last occurrence wins, as in
JavaScript object literals. -/
def Json.getField : Json → String → Option Json
  | .obj fields, key => (fields.reverse.find? (fun f => f.1 == key)).map (fun f => f.2)
  | _, _ => none

/-- JavaScript truthiness of a possibly-undefined value (`!x` is
`!jsTruthy x`). -/
def jsTruthy : Option Json → Bool
  | none => false
  | some .null => false
  | some (.bool b) => b
  | some (.num n) => n != 0
  | some (.str s) => s != ""
  | some (.arr _) => true
  | some (.obj _) => true

/-- Model of `Array.isArray(x)`. -/
def isJsonArray : Option Json → Bool
  | some (.arr _) => true
  | _ => false

/-- Model of `typeof x === 'number'`. -/
def isJsonNumber : Option Json → Bool
  | some (.num _) => true
  | _ => false

/-- Model of `typeof x === 'string'`. -/
def isJsonString : Option Json → Bool
  | some (.str _) => true
  | _ => false

-- ===========================================================================
-- JSON.parse (model of the JavaScript built-in, used by parseOpenAIResponse)
-- ===========================================================================

/-- JSON whitespace characters (space, tab, line feed, carriage return). -/
def isJsonWs (c : Char) : Bool :=
  c == ' ' || c == '\t' || c == '\n' || c == '\r'

/-- Drop leading JSON whitespace. -/
def skipWsL (cs : List Char) : List Char :=
  cs.dropWhile isJsonWs

/-- The character `\x7b` (opening curly bracket). -/
def lcurly : Char := '\x7b'

/-- The character `\x7d` (closing curly bracket). -/
def rcurly : Char := '\x7d'

/-- Value of a hexadecimal digit. -/
def hexVal (c : Char) : Option Nat :=
  if '0' ≤ c ∧ c ≤ '9' then some (c.toNat - 48)
  else if 'a' ≤ c ∧ c ≤ 'f' then some (c.toNat - 87)
  else if 'A' ≤ c ∧ c ≤ 'F' then some (c.toNat - 55)
  else none

/-- Parse the body of a JSON string literal (the opening quote already
consumed); returns the decoded string and the remaining input.  Raw
control characters and unknown escapes are rejected, as in `JSON.parse`. -/
def parseStringBody : List Char → List Char → Option (String × List Char)
  | _, [] => none
  | acc, c :: rest =>
    if c = '"' then some (String.mk acc.reverse, rest)
    else if c = '\\' then
      match rest with
      | [] => none
      | e :: rest2 =>
        if e = '"' then parseStringBody ('"' :: acc) rest2
        else if e = '\\' then parseStringBody ('\\' :: acc) rest2
        else if e = '/' then parseStringBody ('/' :: acc) rest2
        else if e = 'n' then parseStringBody ('\n' :: acc) rest2
        else if e = 't' then parseStringBody ('\t' :: acc) rest2
        else if e = 'r' then parseStringBody ('\r' :: acc) rest2
        else if e = 'b' then parseStringBody ('\x08' :: acc) rest2
        else if e = 'f' then parseStringBody ('\x0c' :: acc) rest2
        else if e = 'u' then
          match rest2 with
          | h1 :: h2 :: h3 :: h4 :: rest3 =>
            match hexVal h1, hexVal h2, hexVal h3, hexVal h4 with
            | some a, some b, some c2, some d =>
              parseStringBody (Char.ofNat (((a * 16 + b) * 16 + c2) * 16 + d) :: acc) rest3
            | _, _, _, _ => none
          | _ => none
        else none
    else if c.toNat < 32 then none
    else parseStringBody (c :: acc) rest

/-- Parse a JSON number.  Fractional and exponent forms are outside this
integer model and are rejected; leading zeros are rejected as in
`JSON.parse`. -/
def parseNumberJ (cs : List Char) : Option (Int × List Char) :=
  let neg := cs.head? = some '-'
  let cs1 := if neg then cs.drop 1 else cs
  let digits := cs1.takeWhile Char.isDigit
  let rest := cs1.dropWhile Char.isDigit
  if digits.isEmpty then none
  else if digits.length > 1 ∧ digits.head? = some '0' then none
  else if rest.head? = some '.' ∨ rest.head? = some 'e' ∨ rest.head? = some 'E' then none
  else
    let v : Int := digits.foldl (fun a c => a * 10 + ((c.toNat : Int) - 48)) 0
    some (if neg then -v else v, rest)

mutual

/-- Parse one JSON value (fuel-bounded recursive descent). -/
def parseJsonValue : Nat → List Char → Option (Json × List Char)
  | 0, _ => none
  | fuel + 1, cs =>
    match skipWsL cs with
    | [] => none
    | c :: rest =>
      if c = lcurly then
        match skipWsL rest with
        | [] => none
        | d :: rest2 =>
          if d = rcurly then some (.obj [], rest2)
          else parseJsonMembers fuel (d :: rest2) []
      else if c = '[' then
        match skipWsL rest with
        | [] => none
        | d :: rest2 =>
          if d = ']' then some (.arr [], rest2)
          else parseJsonElems fuel (d :: rest2) []
      else if c = '"' then
        match parseStringBody [] rest with
        | some (s, rest2) => some (.str s, rest2)
        | none => none
      else if c = 't' then
        match rest with
        | 'r' :: 'u' :: 'e' :: rest2 => some (.bool true, rest2)
        | _ => none
      else if c = 'f' then
        match rest with
        | 'a' :: 'l' :: 's' :: 'e' :: rest2 => some (.bool false, rest2)
        | _ => none
      else if c = 'n' then
        match rest with
        | 'u' :: 'l' :: 'l' :: rest2 => some (.null, rest2)
        | _ => none
      else
        match parseNumberJ (c :: rest) with
        | some (n, rest2) => some (.num n, rest2)
        | none => none

/-- Parse the members of a JSON object (positioned at a key; at least one
member present). -/
def parseJsonMembers : Nat → List Char → List (String × Json) → Option (Json × List Char)
  | 0, _, _ => none
  | fuel + 1, cs, acc =>
    match skipWsL cs with
    | [] => none
    | c :: rest =>
      if c = '"' then
        match parseStringBody [] rest with
        | some (key, rest2) =>
          match skipWsL rest2 with
          | ':' :: rest3 =>
            match parseJsonValue fuel rest3 with
            | some (v, rest4) =>
              match skipWsL rest4 with
              | [] => none
              | d :: rest5 =>
                if d = ',' then parseJsonMembers fuel rest5 ((key, v) :: acc)
                else if d = rcurly then some (.obj ((key, v) :: acc).reverse, rest5)
                else none
            | none => none
          | _ => none
        | none => none
      else none

/-- Parse the elements of a JSON array (positioned at a value; at least one
element present). -/
def parseJsonElems : Nat → List Char → List Json → Option (Json × List Char)
  | 0, _, _ => none
  | fuel + 1, cs, acc =>
    match parseJsonValue fuel cs with
    | some (v, rest) =>
      match skipWsL rest with
      | ',' :: rest2 => parseJsonElems fuel rest2 (v :: acc)
      | ']' :: rest2 => some (.arr (v :: acc).reverse, rest2)
      | _ => none
    | none => none

end

/-- Model of `JSON.parse`: parse a complete JSON document, rejecting
trailing garbage; `none` models a thrown `SyntaxError`. -/
def jsonParse (s : String) : Option Json :=
  match parseJsonValue (2 * s.data.length + 2) s.data with
  | some (v, rest) => if (skipWsL rest).isEmpty then some v else none
  | none => none

-- ===========================================================================
-- Markdown fence extraction (openai-client.ts lines 123-127)
-- ===========================================================================

/-- The backtick character. -/
def backtickChar : Char := '\x60'

/-- Whether the input starts with a three-backtick fence. -/
def startsWithFence : List Char → Bool
  | a :: b :: c :: _ => a = backtickChar && b = backtickChar && c = backtickChar
  | _ => false

/-- Scan for the first closing fence; `accRev` is the content read so far,
reversed.  On success returns the content with the trailing whitespace run
stripped (that run is matched by the `\s*` before the closing fence). -/
def findFenceClose : List Char → List Char → Option (List Char)
  | _, [] => none
  | accRev, cs@(c :: rest) =>
    if startsWithFence cs then some ((accRev.dropWhile isJsonWs).reverse)
    else findFenceClose (c :: accRev) rest

/-- Attempt a fence match directly after an opening fence: optionally
consume `json`, greedily consume whitespace, then capture lazily up to the
first closing fence. -/
def tryFenceMatch (cs : List Char) : Option (List Char) :=
  let cs2 :=
    match cs with
    | 'j' :: 's' :: 'o' :: 'n' :: rest => rest
    | _ => cs
  findFenceClose [] (cs2.dropWhile isJsonWs)

/-- Scan left to right for the first position where the fenced-block
pattern matches, as the regex engine does. -/
def scanForFence : List Char → Option (List Char)
  | [] => none
  | cs@(_ :: rest) =>
    if startsWithFence cs then
      match tryFenceMatch (cs.drop 3) with
      | some content => some content
      | none => scanForFence rest
    else scanForFence rest

/-- Model of the fence-extraction step of `parseOpenAIResponse`
(openai-client.ts lines 121-127): the capture group of the regex match
when one exists, otherwise the input unchanged. -/
def extractFenced (s : String) : String :=
  match scanForFence s.data with
  | some content => String.mk content
  | none => s

-- ===========================================================================
-- OpenAI response parsing and validation (openai-client.ts lines 119-165)
-- ===========================================================================

/-- The per-day validation of the `for (const day of parsed.days)` loop
(openai-client.ts lines 146-157). -/
def validDayEntry (day : Json) : Bool :=
  isJsonNumber (day.getField "day") &&
  isJsonString (day.getField "date") &&
  isJsonString (day.getField "theme") &&
  isJsonArray (day.getField "activities") &&
  jsTruthy (day.getField "dining")

/-- The elements of `parsed.days` (defined when `days` is an array). -/
def jsonDaysList (parsed : Json) : List Json :=
  match parsed.getField "days" with
  | some (.arr ds) => ds
  | _ => []

/-- Model of `parseOpenAIResponse` (openai-client.ts lines 119-165).  The
result is the raw parsed object: the source's `return parsed as TripPlan`
is an unchecked cast that performs no conversion, so a validated response
is surfaced verbatim at JSON level.  The try/catch around the body is
modelled by `Option`: every failure path yields `none`. -/
def parseOpenAIResponse (responseText : String) : Option Json :=
  let jsonString := extractFenced responseText
  match jsonParse jsonString with
  | none => none
  | some parsed =>
    if !jsTruthy (parsed.getField "summary") ||
       !isJsonArray (parsed.getField "days") ||
       !isJsonNumber (parsed.getField "totalCost") ||
       !isJsonArray (parsed.getField "safetyNotes") ||
       !isJsonArray (parsed.getField "packingList") ||
       !isJsonArray (parsed.getField "recommendations") then none
    else if !(jsonDaysList parsed).all validDayEntry then none
    else some parsed

-- ===========================================================================
-- OpenAI call (openai-client.ts lines 42-110)
-- ===========================================================================

/-- Environment of one OpenAI completion call: whether `OPENAI_API_KEY` is
set, and the provider outcome — a thrown error (network, auth, rate limit)
or the joined text content of the response choices. -/
structure OpenAIEnv where
  hasApiKey : Bool
  apiResponse : Except Unit String

/-- Model of `callOpenAIForTripPlan` (openai-client.ts lines 42-110).  The
prompt options only influence the provider response, which the environment
supplies.  `logOpenAIUsage` is a fire-and-forget console log with no data
flow into the result and is not modelled.  The surrounding try/catch turns
every thrown error into `null`. -/
def callOpenAIForTripPlan (env : OpenAIEnv) : Option Json :=
  if !env.hasApiKey then none
  else
    match env.apiResponse with
    | .error _ => none
    | .ok responseText =>
      if responseText = "" then none
      else parseOpenAIResponse responseText

-- ===========================================================================
-- Pilar catalog (src/lib/constants/pilars.ts)
-- ===========================================================================

/-- PilarConfig from `src/types/database.ts` (fields used by the core). -/
structure PilarConfig where
  id : String
  name : String
  weight : Int

/-- FEATURED_PILARS from pilars.ts, in object-literal insertion order. -/
def FEATURED_PILARS : List PilarConfig :=
  [⟨"fjellheisen", "Fjellheisen Cable Car", 10⟩,
   ⟨"ishavskatedralen", "Arctic Cathedral", 9⟩,
   ⟨"polarmuseet", "Polar Museum", 8⟩,
   ⟨"fjordcruise", "Fjord Cruise", 8⟩,
   ⟨"arctic-cathedral", "Arctic Cathedral", 9⟩]

/-- ESSENTIAL_THEMES from pilars.ts, in object-literal insertion order. -/
def ESSENTIAL_THEMES : List PilarConfig :=
  [⟨"nature", "Nature & Wilderness", 10⟩,
   ⟨"culture", "Culture & Arts", 7⟩,
   ⟨"science", "Science & Research", 6⟩,
   ⟨"arctic-wilderness", "Arctic Wilderness", 9⟩,
   ⟨"sami-heritage", "Sami Heritage", 8⟩,
   ⟨"northern-lights", "Northern Lights", 10⟩]

-- ===========================================================================
-- Plan orchestrator (trip-planner.ts lines 478-674)
-- ===========================================================================

/-- Model of `buildAIContext` (trip-planner.ts lines 629-674): the legacy
context string handed to the rule-based generator (which ignores it). -/
def buildAIContext (preferences : TripPreferences) (season : Season) : String :=
  let seasonConfig := SEASONS season
  let featuredPilars := String.intercalate ", " (FEATURED_PILARS.map (fun p => p.name))
  let essentialThemes := String.intercalate ", " (ESSENTIAL_THEMES.map (fun t => t.name))
  let budget :=
    if preferences.budget = .low then "800 NOK/dag"
    else if preferences.budget = .medium then "1500 NOK/dag" else "3000+ NOK/dag"
  let pace :=
    if preferences.difficulty = .easy then "rolig"
    else if preferences.difficulty = .moderate then "moderat" else "aktivt"
  (String.trim
    ("\nYou are a local Tromsø expert and AI trip curator. Generate a personalized "
      ++ toString preferences.days ++ "-day itinerary.\n\nCONTEXT:\n- Season: "
      ++ seasonConfig.nameNo ++ " (" ++ seasonConfig.description ++ ")\n- Weather: "
      ++ seasonConfig.weatherInfo ++ "\n- Seasonal highlights: "
      ++ String.intercalate ", " seasonConfig.highlights
      ++ "\n\nUSER PREFERENCES:\n- Budget: " ++ budget ++ "\n- Pace: " ++ pace
      ++ "\n- Transport: "
      ++ (if preferences.transport = .car then "Med bil" else "Uten bil (offentlig transport)")
      ++ "\n- Group size: " ++ toString (preferences.groupSize.getD 2)
      ++ " personer\n- Interests: " ++ String.intercalate ", " preferences.interests
      ++ "\n\nTROMSØ\u0027S FEATURED PILARS (must include at least 2):\n" ++ featuredPilars
      ++ "\n\nESSENTIAL THEMES TO WEAVE IN:\n" ++ essentialThemes
      ++ "\n\nRULES:\n1. Include travel time between locations"
      ++ "\n2. Factor in opening hours and daylight ("
      ++ (if season = .polarNight then "no direct sunlight" else "midnight sun in summer")
      ++ ")\n3. Balance indoor/outdoor based on weather"
      ++ "\n4. Suggest booking-required activities with time slots"
      ++ "\n5. Include lunch and dinner recommendations"
      ++ "\n6. Add Northern Lights viewing if winter/polar-night"
      ++ "\n7. Respect budget constraints"
      ++ "\n8. Optimize route based on transport mode"
      ++ "\n9. Include safety notes and packing recommendations"
      ++ "\n\nOUTPUT: Structured day-by-day plan with times, costs, and explanations.\n  "))

/-- Result of `generateTripPlan`.  At runtime both branches inhabit the TS
`TripPlan` type; the AI branch is kept at JSON level because the source's
`parsed as TripPlan` cast performs no conversion or field filtering. -/
inductive GenResult where
  | fromAI (plan : Json)
  | fromRules (plan : TripPlan)

/-- Outcome of the `await callOpenAIForTripPlan(...)` step as seen by the
orchestrator's try block: a thrown exception, or a returned value (`none`
models `null`).  In the modelled source the call itself never throws (its
own try/catch returns `null`), but the orchestrator's catch is part of the
code and is kept. -/
inductive AIAttempt where
  | throws
  | returns (result : Option Json)

/-- Model of `generateTripPlan` (trip-planner.ts lines 497-529): try the
AI path; on a `null` result or a thrown error, fall back to the rule-based
generator.  `buildSystemPrompt`/`buildUserMessage` only shape the provider
request and are absorbed into the attempt outcome. -/
def generateTripPlan (attempt : AIAttempt) (preferences : TripPreferences)
    (season : Season) (startDate : CalDate) : GenResult :=
  match attempt with
  | .returns (some aiPlan) => .fromAI aiPlan
  | .returns none =>
    .fromRules (generatePlanWithRules preferences season startDate
      (buildAIContext preferences season))
  | .throws =>
    .fromRules (generatePlanWithRules preferences season startDate
      (buildAIContext preferences season))

/-- Field `totalCost` of a generated plan (for the AI branch, the raw JSON
field, which validation guarantees to be a number). -/
def GenResult.totalCostField : GenResult → Option Json
  | .fromAI plan => plan.getField "totalCost"
  | .fromRules plan => some (.num plan.totalCost)

/-- Number of day entries of a generated plan. -/
def GenResult.numDays : GenResult → Nat
  | .fromAI plan => (jsonDaysList plan).length
  | .fromRules plan => plan.days.length

/-- Sum of the `cost` fields of all activities across the days of a
generated plan.  For an AI plan, `none` models the `NaN`/`undefined`
poisoning that a missing or non-numeric `cost` produces in an arithmetic
sum. -/
def GenResult.activityCostSum : GenResult → Option Int
  | .fromAI plan =>
    (jsonDaysList plan).foldl
      (fun sum day =>
        match sum, day.getField "activities" with
        | some s, some (.arr acts) =>
          acts.foldl
            (fun acc act =>
              match acc, act.getField "cost" with
              | some a, some (.num c) => some (a + c)
              | _, _ => none)
            (some s)
        | _, _ => none)
      (some 0)
  | .fromRules plan =>
    some ((plan.days.map (fun day => ((day.activities.map Activity.cost).sum))).sum)

-- ===========================================================================
-- Persistence and lookup endpoints
-- ===========================================================================

/-- Persisted trip record (Prisma `tripPlan` row).  Timestamps are
milliseconds since the epoch, the resolution of JavaScript `Date`
comparisons. -/
structure StoredTrip where
  id : String
  shareableId : String
  preferences : TripPreferences
  plan : GenResult
  createdAt : Int
  expiresAt : Int

/-- Model of `prisma.tripPlan.findUnique({ where: { shareableId } })`. -/
def findByShareableId (store : List StoredTrip) (shareableId : String) : Option StoredTrip :=
  store.find? (fun t => t.shareableId == shareableId)

/-- Model of `prisma.tripPlan.findUnique({ where: { id } })`. -/
def findById (store : List StoredTrip) (id : String) : Option StoredTrip :=
  store.find? (fun t => t.id == id)

/-- Response of a lookup endpoint: HTTP status and, on success, the
returned record (whose fields the handler serialises verbatim). -/
structure GetTripResult where
  status : Nat
  record : Option StoredTrip

/-- Model of `GET /api/trips/share/[shareableId]`
(src/app/api/trips/share/[shareableId]/route.ts lines 9-69; the
Sentry-instrumented variant in the same file has identical status logic).
`now` is the wall-clock read time (`new Date()`). -/
def getTripByShareableId (store : List StoredTrip) (now : Int)
    (shareableId : String) : GetTripResult :=
  if shareableId = "" then ⟨400, none⟩
  else
    match findByShareableId store shareableId with
    | none => ⟨404, none⟩
    | some tripPlan =>
      if tripPlan.expiresAt < now then ⟨410, none⟩
      else ⟨200, some tripPlan⟩

/-- Model of `GET /api/trips/[id]` (src/app/api/trips/[id]/route.ts lines
11-72): same lookup by primary id, deliberately without an expiration
check. -/
def getTripById (store : List StoredTrip) (id : String) : GetTripResult :=
  if id = "" then ⟨400, none⟩
  else
    match findById store id with
    | none => ⟨404, none⟩
    | some tripPlan => ⟨200, some tripPlan⟩

-- ===========================================================================
-- POST /api/trips
-- ===========================================================================

/-- Environment of one `POST /api/trips` request: the AI attempt outcome,
the database write outcome (`Except` carries the thrown error message),
the `cuid()` values drawn in order, and the wall clock (`nowDate` the date
component used for a defaulted start date, `nowMs` the instant used for
`generatedAt`/`expiresAt`). -/
structure PostEnv where
  ai : AIAttempt
  dbWrite : Except String Unit
  cuid1 : String
  cuid2 : String
  cuid3 : String
  cuid4 : String
  nowDate : CalDate
  nowMs : Int

/-- Body of the 201 response of `POST /api/trips` (`TripPlanResponse`
plus `id`/`shareableId`; the constant `metadata` counters are omitted). -/
structure PostPayload where
  plan : GenResult
  preferences : TripPreferences
  generatedAt : Int
  id : String
  shareableId : String

/-- Response of `POST /api/trips`: status, the error message of a non-2xx
response, and the payload of a 201 response. -/
structure PostResult where
  status : Nat
  error : Option String
  payload : Option PostPayload

/-- Model of `POST /api/trips` (src/app/api/trips/route.ts, first
document, lines 12-87).  The body's `preferences` is `none` when absent;
`preferences.days = 0` triggers the falsy missing-fields check (the
`!preferences.budget`/`!preferences.interests` checks cannot fire on the
typed model).  A failing database write throws into the outer catch and
becomes a 500. -/
def postTrips (env : PostEnv) (body : Option TripPreferences) : PostResult :=
  match body with
  | none => ⟨400, some "Missing required fields: days, budget, interests", none⟩
  | some preferences =>
    if preferences.days = 0 then
      ⟨400, some "Missing required fields: days, budget, interests", none⟩
    else if preferences.days < 1 ∨ preferences.days > 14 then
      ⟨400, some "Days must be between 1 and 14", none⟩
    else if preferences.interests.isEmpty then
      ⟨400, some "At least one interest must be selected", none⟩
    else
      let startDate := preferences.startDate.getD env.nowDate
      let season := getSeasonFromDate startDate
      let plan := generateTripPlan env.ai preferences season startDate
      match env.dbWrite with
      | .error msg => ⟨500, some msg, none⟩
      | .ok _ =>
        ⟨201, none, some ⟨plan, preferences, env.nowMs, env.cuid1, env.cuid2⟩⟩

/-- Operational-visibility events emitted by the resilient POST handler. -/
inductive LogEvent where
  | dbPersistFailed
deriving DecidableEq

/-- Model of the resilient `POST /api/trips` variant (src/unnamed/part_004
lines 18-125): identical validation, but the database write is wrapped in
its own try/catch — on failure the handler records the persistence error
(console.error and `tagError('database')`, modelled by the
`dbPersistFailed` event) and still returns the 201 response, built with
freshly drawn cuids. -/
def postTripsBestEffort (env : PostEnv) (body : Option TripPreferences) :
    PostResult × List LogEvent :=
  match body with
  | none => (⟨400, some "Invalid request body", none⟩, [])
  | some preferences =>
    if preferences.days = 0 then
      (⟨400, some "Missing required fields: days, budget, interests", none⟩, [])
    else if preferences.days < 1 ∨ preferences.days > 14 then
      (⟨400, some "Days must be between 1 and 14", none⟩, [])
    else if preferences.interests.isEmpty then
      (⟨400, some "At least one interest must be selected", none⟩, [])
    else
      let startDate := preferences.startDate.getD env.nowDate
      let season := getSeasonFromDate startDate
      let plan := generateTripPlan env.ai preferences season startDate
      match env.dbWrite with
      | .ok _ =>
        (⟨201, none, some ⟨plan, preferences, env.nowMs, env.cuid1, env.cuid2⟩⟩, [])
      | .error _ =>
        (⟨201, none, some ⟨plan, preferences, env.nowMs, env.cuid3, env.cuid4⟩⟩,
         [.dbPersistFailed])

-- ===========================================================================
-- Concrete fixtures used by counterexamples and witnesses
-- ===========================================================================

/-- A valid preference set (3 days, medium budget, two interests). -/
def cPrefs : TripPreferences :=
  { days := 3, budget := .medium, interests := ["aurora", "dining"],
    transport := .car, difficulty := .moderate }

/-- An OpenAI response that passes the source validation although its
`totalCost` (5) differs from the sum of its activity costs (0): the one
day has an empty `activities` array. -/
def c2BadResponse : String :=
  "\x7b\"summary\":\"Tromsø weekend\",\"days\":[\x7b\"day\":1,\"date\":\"2026-02-01\",\"theme\":\"Arrival\",\"activities\":[],\"dining\":\x7b\"lunch\":\"Fiskekompaniet\"\x7d\x7d],\"totalCost\":5,\"safetyNotes\":[],\"packingList\":[],\"recommendations\":[]\x7d"

/-- An OpenAI response that passes the source validation but has a single
day entry (numbered 99, dated outside the trip window). -/
def c3BadResponse : String :=
  "\x7b\"summary\":\"Short answer\",\"days\":[\x7b\"day\":99,\"date\":\"1999-12-31\",\"theme\":\"Lone day\",\"activities\":[],\"dining\":\x7b\"dinner\":\"Smak\"\x7d\x7d],\"totalCost\":0,\"safetyNotes\":[],\"packingList\":[],\"recommendations\":[]\x7d"

/-- An OpenAI response whose `days` array is empty: it passes the source
validation (which checks `Array.isArray` but not non-emptiness). -/
def c5EmptyDaysResponse : String :=
  "\x7b\"summary\":\"s\",\"days\":[],\"totalCost\":0,\"safetyNotes\":[],\"packingList\":[],\"recommendations\":[]\x7d"

/-- The parse result of `c5EmptyDaysResponse`. -/
def c5EmptyDaysPlan : Json :=
  .obj [("summary", .str "s"), ("days", .arr []), ("totalCost", .num 0),
        ("safetyNotes", .arr []), ("packingList", .arr []), ("recommendations", .arr [])]

/-- A well-formed OpenAI response wrapped in a markdown code fence. -/
def c5GoodResponse : String :=
  "Here is your plan:\n```json\n\x7b\"summary\":\"Two winter days\",\"days\":[\x7b\"day\":1,\"date\":\"2026-02-01\",\"theme\":\"Arrival\",\"activities\":[\x7b\"title\":\"Fjellheisen\",\"cost\":200\x7d],\"dining\":\x7b\"lunch\":\"Fiskekompaniet\"\x7d\x7d],\"totalCost\":200,\"safetyNotes\":[\"Dress warm\"],\"packingList\":[\"Gloves\"],\"recommendations\":[\"Book early\"]\x7d\n```"

/-- The parse result of the fenced content of `c5GoodResponse`. -/
def c5GoodPlan : Json :=
  .obj [("summary", .str "Two winter days"),
        ("days", .arr [.obj [("day", .num 1), ("date", .str "2026-02-01"),
          ("theme", .str "Arrival"),
          ("activities", .arr [.obj [("title", .str "Fjellheisen"), ("cost", .num 200)]]),
          ("dining", .obj [("lunch", .str "Fiskekompaniet")])]]),
        ("totalCost", .num 200),
        ("safetyNotes", .arr [.str "Dress warm"]),
        ("packingList", .arr [.str "Gloves"]),
        ("recommendations", .arr [.str "Book early"])]

/-- A stored trip record used by lookup witnesses. -/
def cStoredTrip : StoredTrip :=
  { id := "ckid001", shareableId := "cksh001", preferences := cPrefs,
    plan := .fromRules (generatePlanWithRules cPrefs .winter ⟨2026, 2, 1⟩ ""),
    createdAt := 1000, expiresAt := 2000 }

/-- A request environment whose database write fails. -/
def c9Env : PostEnv :=
  { ai := .returns none, dbWrite := .error "db down", cuid1 := "a", cuid2 := "b",
    cuid3 := "c", cuid4 := "d", nowDate := ⟨2026, 2, 1⟩, nowMs := 0 }

/-- Preferences differing from `c10PrefsB` only in budget, difficulty,
group size and language. -/
def c10PrefsA : TripPreferences :=
  { days := 2, budget := .low, interests := ["aurora"], transport := .noCar,
    difficulty := .easy, language := some "no", groupSize := some 2 }

/-- Preferences differing from `c10PrefsA` only in budget, difficulty,
group size and language. -/
def c10PrefsB : TripPreferences :=
  { days := 2, budget := .high, interests := ["aurora"], transport := .noCar,
    difficulty := .active, language := some "en", groupSize := some 5 }

set_option maxRecDepth 8000

-- ===========================================================================
-- Helper lemmas
-- ===========================================================================

/-- Folding `+ f a` over a list accumulates the sum of the mapped list. -/
theorem foldl_add_eq_add_sum {α : Type} (f : α → Int) (l : List α) (init : Int) :
    l.foldl (fun s a => s + f a) init = init + (l.map f).sum := by
  induction l generalizing init with
  | nil => simp
  | cons x xs ih => simp [ih, add_assoc]

-- ===========================================================================
-- Claim theorems
-- ===========================================================================

/-- Claim C1: for every valid input, `generateTripPlan` returns a plan and
never propagates an error to its caller.  The Lean embedding is a total
function into `GenResult` (so a plan is always returned — never
null/undefined, never an exception), and this theorem pins the routing:
a successful AI result is returned as-is; a thrown attempt or a null
result routes to the rule-based fallback; and the AI call itself yields
null whenever the API credential is missing, the provider throws, or the
response is unparseable or schema-invalid. -/
theorem generateTripPlan_never_fails
    (preferences : TripPreferences) (season : Season) (startDate : CalDate)
    (env : OpenAIEnv) (attempt : AIAttempt) :
    (∀ p, attempt = .returns (some p) →
      generateTripPlan attempt preferences season startDate = .fromAI p) ∧
    (attempt = .throws ∨ attempt = .returns none →
      generateTripPlan attempt preferences season startDate =
        .fromRules (generatePlanWithRules preferences season startDate
          (buildAIContext preferences season))) ∧
    (env.hasApiKey = false → callOpenAIForTripPlan env = none) ∧
    (env.apiResponse = .error () → callOpenAIForTripPlan env = none) ∧
    (∀ text, env.apiResponse = .ok text → parseOpenAIResponse text = none →
      callOpenAIForTripPlan env = none) ∧
    (callOpenAIForTripPlan env = none →
      generateTripPlan (.returns (callOpenAIForTripPlan env)) preferences season startDate =
        .fromRules (generatePlanWithRules preferences season startDate
          (buildAIContext preferences season))) := by
  obtain ⟨key, response⟩ := env
  refine ⟨?_, ?_, ?_, ?_, ?_, ?_⟩
  · rintro p rfl; rfl
  · rintro (rfl | rfl) <;> rfl
  · intro h
    simp only at h
    rw [h]
    rfl
  · intro h
    simp only at h
    rw [callOpenAIForTripPlan, h]
    cases key <;> rfl
  · intro text ht hp
    simp only at ht
    rw [callOpenAIForTripPlan, ht]
    cases key with
    | false => rfl
    | true =>
      simp only [Bool.not_true, Bool.false_eq_true, if_false]
      split <;> simp [hp]
  · intro h
    rw [h]
    rfl

/-- Claim C1 witness: the theorem applied at a concrete missing-credential
environment and a concrete null AI attempt. -/
theorem generateTripPlan_never_fails_witness :
    callOpenAIForTripPlan ⟨false, .ok "hello"⟩ = none ∧
    generateTripPlan (.returns none) cPrefs .winter ⟨2026, 2, 1⟩ =
      .fromRules (generatePlanWithRules cPrefs .winter ⟨2026, 2, 1⟩
        (buildAIContext cPrefs .winter)) :=
  ⟨(generateTripPlan_never_fails cPrefs .winter ⟨2026, 2, 1⟩ ⟨false, .ok "hello"⟩
      (.returns none)).2.2.1 rfl,
   (generateTripPlan_never_fails cPrefs .winter ⟨2026, 2, 1⟩ ⟨false, .ok "hello"⟩
      (.returns none)).2.1 (Or.inr rfl)⟩

/-- Claim C2 counterexample: `generateTripPlan` can return a plan whose
`totalCost` (5) is not the sum of its activity costs (0): it surfaces an
AI response verbatim, and the validation only checks that `totalCost` is
a number. -/
theorem generateTripPlan_ai_totalCost_mismatch :
    (generateTripPlan (.returns (callOpenAIForTripPlan ⟨true, .ok c2BadResponse⟩))
        cPrefs .winter ⟨2026, 2, 1⟩).totalCostField = some (.num 5) ∧
    (generateTripPlan (.returns (callOpenAIForTripPlan ⟨true, .ok c2BadResponse⟩))
        cPrefs .winter ⟨2026, 2, 1⟩).activityCostSum = some 0 ∧
    (5 : Int) ≠ 0 :=
  ⟨by rfl, by rfl, by decide⟩

/-- Claim C2 (amended): the totalCost invariant holds for every plan built
by the rule-based generator — hence for every plan `generateTripPlan`
returns when the AI path fails — with exact integer equality. -/
theorem generatePlanWithRules_totalCost_eq_sum
    (preferences : TripPreferences) (season : Season) (startDate : CalDate)
    (context : String) :
    (generatePlanWithRules preferences season startDate context).totalCost =
      ((generatePlanWithRules preferences season startDate context).days.map
        (fun day => (day.activities.map Activity.cost).sum)).sum := by
  simp only [generatePlanWithRules]
  simp only [foldl_add_eq_add_sum, zero_add]

/-- Claim C3 counterexample: with three requested days, `generateTripPlan`
can return a one-day plan: an AI response with a single (mis-numbered,
mis-dated) day entry passes validation and is surfaced verbatim. -/
theorem generateTripPlan_ai_day_count_mismatch :
    (generateTripPlan (.returns (callOpenAIForTripPlan ⟨true, .ok c3BadResponse⟩))
        cPrefs .winter ⟨2026, 2, 1⟩).numDays = 1 ∧
    cPrefs.days = 3 ∧ (1 : Int) ≠ 3 :=
  ⟨by rfl, by rfl, by decide⟩

/-- Claim C3 (amended): for all valid `TripPreferences`, the rule-based
plan — hence the plan `generateTripPlan` returns whenever the AI path
fails — has exactly `preferences.days` day entries; the k-th entry (0
based) carries day number k+1 (so the day numbers are distinct,
contiguous, and start at 1) and the date obtained by adding k days to the
start date. -/
theorem generatePlanWithRules_day_numbering
    (preferences : TripPreferences) (season : Season) (startDate : CalDate)
    (context : String) (h : 1 ≤ preferences.days) :
    (((generatePlanWithRules preferences season startDate context).days.length : Int) =
        preferences.days) ∧
    (∀ k (hk : k < (generatePlanWithRules preferences season startDate context).days.length),
      ((generatePlanWithRules preferences season startDate context).days.get ⟨k, hk⟩).day =
        (k : Int) + 1) ∧
    (∀ k (hk : k < (generatePlanWithRules preferences season startDate context).days.length),
      ((generatePlanWithRules preferences season startDate context).days.get ⟨k, hk⟩).date =
        formatISO (addDays startDate (k : Int))) := by
  refine ⟨?_, ?_, ?_⟩
  · simp only [generatePlanWithRules, List.length_map, List.length_range]
    omega
  · intro k hk
    simp only [generatePlanWithRules, List.get_eq_getElem] at hk ⊢
    rw [List.getElem_map, List.getElem_range]
    simp [generateDayPlan]
  · intro k hk
    simp only [generatePlanWithRules, List.get_eq_getElem] at hk ⊢
    rw [List.getElem_map, List.getElem_range]
    simp [generateDayPlan]

/-- Claim C3 witness: the amended theorem applied to the concrete
3-day preferences. -/
theorem generatePlanWithRules_day_numbering_witness :
    (((generatePlanWithRules cPrefs .winter ⟨2026, 2, 1⟩ "ctx").days.length : Int) = 3) ∧
    ((generatePlanWithRules cPrefs .winter ⟨2026, 2, 1⟩ "ctx").days.get
        ⟨1, by decide⟩).day = 2 :=
  ⟨(generatePlanWithRules_day_numbering cPrefs .winter ⟨2026, 2, 1⟩ "ctx" (by decide)).1,
   (generatePlanWithRules_day_numbering cPrefs .winter ⟨2026, 2, 1⟩ "ctx" (by decide)).2.1
      1 (by decide)⟩

/-- Claim C4: in the rule-based path, a day plan carries the Aurora
sub-record — and the fixed 21:00 "Northern Lights Chase" activity — if and
only if the season is winter or polar-night; in particular no summer day
ever carries either. -/
theorem generatePlanWithRules_aurora_iff
    (preferences : TripPreferences) (season : Season) (startDate : CalDate)
    (context : String) :
    ∀ day ∈ (generatePlanWithRules preferences season startDate context).days,
      (day.aurora.isSome = true ↔ (season = .winter ∨ season = .polarNight)) ∧
      (day.activities.any (fun a => a.title == "Northern Lights Chase") = true ↔
        (season = .winter ∨ season = .polarNight)) := by
  intro day hday
  simp only [generatePlanWithRules, List.mem_map, List.mem_range] at hday
  obtain ⟨i, _, rfl⟩ := hday
  by_cases hf : (Int.ofNat i + 1 : Int) = 1 <;> cases season <;>
    simp [generateDayPlan, hf]

/-- Claim C4 witness: the first winter day of the concrete plan carries
the Aurora sub-record and the aurora-chase activity. -/
theorem generatePlanWithRules_aurora_iff_witness :
    (generateDayPlan (Int.ofNat 0 + 1) (addDays ⟨2026, 2, 1⟩ (Int.ofNat 0))
        cPrefs .winter).aurora.isSome = true ∧
    (generateDayPlan (Int.ofNat 0 + 1) (addDays ⟨2026, 2, 1⟩ (Int.ofNat 0))
        cPrefs .winter).activities.any
      (fun a => a.title == "Northern Lights Chase") = true :=
  ⟨(generatePlanWithRules_aurora_iff cPrefs .winter ⟨2026, 2, 1⟩ "ctx" _
      (by decide)).1.mpr (Or.inl rfl),
   (generatePlanWithRules_aurora_iff cPrefs .winter ⟨2026, 2, 1⟩ "ctx" _
      (by decide)).2.mpr (Or.inl rfl)⟩

/-- Claim C5 counterexample: a response whose `days` array is empty is not
rejected — `parseOpenAIResponse` returns the parsed plan, because the
source only checks `Array.isArray(parsed.days)`, never non-emptiness. -/
theorem parseOpenAIResponse_accepts_empty_days :
    parseOpenAIResponse c5EmptyDaysResponse = some c5EmptyDaysPlan ∧
    c5EmptyDaysPlan.getField "days" = some (.arr []) :=
  ⟨by rfl, by rfl⟩

/-- Claim C5 (amended): for every input string the parser is total (the
embedding returns an `Option`, never throws); it extracts the inner
content of a fenced code block when one is present, strictly parses it as
JSON, returns null on parse failure, and returns null unless the parsed
object has a truthy `summary`, array-valued `days`, `safetyNotes`,
`packingList` and `recommendations`, a numeric `totalCost`, and every day
entry has a numeric `day`, string `date`, string `theme`, an `activities`
array and a truthy `dining`; otherwise it returns the parsed plan
verbatim.  (Differences from the original claim: `summary` and `dining`
are only checked for truthiness, not for being a string/object, and an
empty `days` array is accepted.) -/
theorem parseOpenAIResponse_contract (responseText : String) :
    (jsonParse (extractFenced responseText) = none →
      parseOpenAIResponse responseText = none) ∧
    (∀ plan, parseOpenAIResponse responseText = some plan →
      jsonParse (extractFenced responseText) = some plan ∧
      jsTruthy (plan.getField "summary") = true ∧
      isJsonArray (plan.getField "days") = true ∧
      isJsonNumber (plan.getField "totalCost") = true ∧
      isJsonArray (plan.getField "safetyNotes") = true ∧
      isJsonArray (plan.getField "packingList") = true ∧
      isJsonArray (plan.getField "recommendations") = true ∧
      (∀ day ∈ jsonDaysList plan, validDayEntry day = true)) ∧
    (∀ plan, jsonParse (extractFenced responseText) = some plan →
      jsTruthy (plan.getField "summary") = true →
      isJsonArray (plan.getField "days") = true →
      isJsonNumber (plan.getField "totalCost") = true →
      isJsonArray (plan.getField "safetyNotes") = true →
      isJsonArray (plan.getField "packingList") = true →
      isJsonArray (plan.getField "recommendations") = true →
      (∀ day ∈ jsonDaysList plan, validDayEntry day = true) →
      parseOpenAIResponse responseText = some plan) := by
  cases hp : jsonParse (extractFenced responseText) with
  | none =>
    refine ⟨fun _ => by simp [parseOpenAIResponse, hp], fun plan h => ?_,
      fun plan h => ?_⟩
    · simp [parseOpenAIResponse, hp] at h
    · exact Option.noConfusion h
  | some parsed =>
    refine ⟨fun h => Option.noConfusion h, ?_, ?_⟩
    · intro plan h
      simp only [parseOpenAIResponse, hp] at h
      by_cases h1 : (!jsTruthy (parsed.getField "summary") ||
          !isJsonArray (parsed.getField "days") ||
          !isJsonNumber (parsed.getField "totalCost") ||
          !isJsonArray (parsed.getField "safetyNotes") ||
          !isJsonArray (parsed.getField "packingList") ||
          !isJsonArray (parsed.getField "recommendations")) = true
      · rw [if_pos h1] at h
        exact Option.noConfusion h
      · rw [if_neg h1] at h
        by_cases h2 : (!(jsonDaysList parsed).all validDayEntry) = true
        · rw [if_pos h2] at h
          exact Option.noConfusion h
        · rw [if_neg h2] at h
          obtain rfl := Option.some.inj h
          rw [Bool.not_eq_true] at h1 h2
          simp only [Bool.or_eq_false_iff, Bool.not_eq_false'] at h1
          obtain ⟨⟨⟨⟨⟨ha, hb⟩, hc⟩, hd⟩, he⟩, hf⟩ := h1
          rw [Bool.not_eq_false'] at h2
          exact ⟨rfl, ha, hb, hc, hd, he, hf,
            fun day hday => List.all_eq_true.mp h2 day hday⟩
    · intro plan h ha hb hc hd he hf hall
      obtain rfl := Option.some.inj h
      have h1 : (!jsTruthy (parsed.getField "summary") ||
          !isJsonArray (parsed.getField "days") ||
          !isJsonNumber (parsed.getField "totalCost") ||
          !isJsonArray (parsed.getField "safetyNotes") ||
          !isJsonArray (parsed.getField "packingList") ||
          !isJsonArray (parsed.getField "recommendations")) = false := by
        simp [ha, hb, hc, hd, he, hf]
      have h2 : (!(jsonDaysList parsed).all validDayEntry) = false := by
        simp only [List.all_eq_true.mpr hall, Bool.not_true]
      simp only [parseOpenAIResponse, hp, h1, h2, Bool.false_eq_true, if_false]

/-- Claim C5 witness: the contract applied to a concrete fenced response,
with every validation hypothesis discharged by evaluation. -/
theorem parseOpenAIResponse_contract_witness :
    parseOpenAIResponse c5GoodResponse = some c5GoodPlan :=
  (parseOpenAIResponse_contract c5GoodResponse).2.2 c5GoodPlan (by rfl) (by rfl)
    (by rfl) (by rfl) (by rfl) (by rfl) (by rfl) (by decide)

/-- Claim C6: the season resolver is a total pure function of the calendar
month of its argument: months 5-8 map to summer, 11 and 1 to polar-night,
12 and 2 to winter, and the shoulder months 3, 4, 9, 10 to winter by
default policy. -/
theorem getSeasonFromDate_month_mapping (d e : CalDate) :
    (5 ≤ d.month → d.month ≤ 8 → getSeasonFromDate d = .summer) ∧
    ((d.month = 11 ∨ d.month = 1) → getSeasonFromDate d = .polarNight) ∧
    ((d.month = 12 ∨ d.month = 2) → getSeasonFromDate d = .winter) ∧
    ((d.month = 3 ∨ d.month = 4 ∨ d.month = 9 ∨ d.month = 10) →
      getSeasonFromDate d = .winter) ∧
    (d.month = e.month → getSeasonFromDate d = getSeasonFromDate e) := by
  refine ⟨fun h1 h2 => ?_, fun h => ?_, fun h => ?_, fun h => ?_, fun h => ?_⟩
  · unfold getSeasonFromDate
    split_ifs <;> first | rfl | omega
  · unfold getSeasonFromDate
    split_ifs <;> first | rfl | omega
  · unfold getSeasonFromDate
    split_ifs <;> first | rfl | omega
  · unfold getSeasonFromDate
    split_ifs <;> first | rfl | omega
  · unfold getSeasonFromDate
    rw [h]

/-- Claim C6 witness: the mapping applied at concrete dates in June,
January, February and September. -/
theorem getSeasonFromDate_month_mapping_witness :
    getSeasonFromDate ⟨2026, 6, 15⟩ = .summer ∧
    getSeasonFromDate ⟨2026, 1, 10⟩ = .polarNight ∧
    getSeasonFromDate ⟨2026, 2, 1⟩ = .winter ∧
    getSeasonFromDate ⟨2026, 9, 5⟩ = .winter :=
  ⟨(getSeasonFromDate_month_mapping ⟨2026, 6, 15⟩ ⟨2026, 6, 15⟩).1 (by decide) (by decide),
   (getSeasonFromDate_month_mapping ⟨2026, 1, 10⟩ ⟨2026, 1, 10⟩).2.1 (by decide),
   (getSeasonFromDate_month_mapping ⟨2026, 2, 1⟩ ⟨2026, 2, 1⟩).2.2.1 (by decide),
   (getSeasonFromDate_month_mapping ⟨2026, 9, 5⟩ ⟨2026, 9, 5⟩).2.2.2.1 (by decide)⟩

/-- Claim C7: a shareable-id lookup returns 200 with the stored record
when it exists and the read time is before `expiresAt`, a distinct 410
when the read time is past `expiresAt`, and 404 when no record has that
shareable id; a primary-id lookup returns the record whenever it exists,
regardless of expiration. -/
theorem tripLookup_expiration_contract (store : List StoredTrip) (now : Int)
    (sid tid : String) (t : StoredTrip) :
    (sid ≠ "" → findByShareableId store sid = some t → now < t.expiresAt →
      getTripByShareableId store now sid = ⟨200, some t⟩) ∧
    (sid ≠ "" → findByShareableId store sid = some t → t.expiresAt < now →
      getTripByShareableId store now sid = ⟨410, none⟩) ∧
    (sid ≠ "" → findByShareableId store sid = none →
      getTripByShareableId store now sid = ⟨404, none⟩) ∧
    (tid ≠ "" → findById store tid = some t →
      getTripById store tid = ⟨200, some t⟩) := by
  refine ⟨fun hs hf hlt => ?_, fun hs hf hlt => ?_, fun hs hf => ?_, fun hs hf => ?_⟩
  · simp only [getTripByShareableId, if_neg hs, hf]
    rw [if_neg (by omega : ¬ t.expiresAt < now)]
  · simp only [getTripByShareableId, if_neg hs, hf]
    rw [if_pos hlt]
  · simp only [getTripByShareableId, if_neg hs, hf]
  · simp only [getTripById, if_neg hs, hf]

/-- Claim C7 witness: the contract applied to a concrete one-record store
read before and after its expiration time. -/
theorem tripLookup_expiration_contract_witness :
    getTripByShareableId [cStoredTrip] 1500 "cksh001" = ⟨200, some cStoredTrip⟩ ∧
    getTripByShareableId [cStoredTrip] 2500 "cksh001" = ⟨410, none⟩ ∧
    getTripByShareableId [cStoredTrip] 1500 "nosuch" = ⟨404, none⟩ ∧
    getTripById [cStoredTrip] "ckid001" = ⟨200, some cStoredTrip⟩ :=
  ⟨(tripLookup_expiration_contract [cStoredTrip] 1500 "cksh001" "ckid001" cStoredTrip).1
      (by decide) (by rfl) (by decide),
   (tripLookup_expiration_contract [cStoredTrip] 2500 "cksh001" "ckid001" cStoredTrip).2.1
      (by decide) (by rfl) (by decide),
   (tripLookup_expiration_contract [cStoredTrip] 1500 "nosuch" "ckid001" cStoredTrip).2.2.1
      (by decide) (by rfl),
   (tripLookup_expiration_contract [cStoredTrip] 1500 "cksh001" "ckid001" cStoredTrip).2.2.2
      (by decide) (by rfl)⟩

/-- Claim C8: when the database write fails, the resilient POST handler
still returns 201 with the generated plan (persistence is best-effort),
and the persistence failure is recorded for operational visibility. -/
theorem postTripsBestEffort_returns_plan_on_db_failure
    (env : PostEnv) (preferences : TripPreferences) (msg : String)
    (hdb : env.dbWrite = .error msg)
    (h1 : 1 ≤ preferences.days) (h14 : preferences.days ≤ 14)
    (hint : preferences.interests ≠ []) :
    (postTripsBestEffort env (some preferences)).1.status = 201 ∧
    (postTripsBestEffort env (some preferences)).1.payload =
      some { plan := generateTripPlan env.ai preferences
                (getSeasonFromDate (preferences.startDate.getD env.nowDate))
                (preferences.startDate.getD env.nowDate),
             preferences := preferences, generatedAt := env.nowMs,
             id := env.cuid3, shareableId := env.cuid4 } ∧
    LogEvent.dbPersistFailed ∈ (postTripsBestEffort env (some preferences)).2 := by
  have c1 : ¬ preferences.days = 0 := by omega
  have c2 : ¬ (preferences.days < 1 ∨ preferences.days > 14) := by omega
  have c3 : preferences.interests.isEmpty = false := by
    simpa [List.isEmpty_iff] using hint
  simp only [postTripsBestEffort, if_neg c1, if_neg c2, c3, Bool.false_eq_true,
    if_false, hdb]
  exact ⟨trivial, trivial, by simp⟩

/-- Claim C8 witness: the theorem applied to the concrete failing-write
environment. -/
theorem postTripsBestEffort_returns_plan_on_db_failure_witness :
    (postTripsBestEffort c9Env (some cPrefs)).1.status = 201 ∧
    LogEvent.dbPersistFailed ∈ (postTripsBestEffort c9Env (some cPrefs)).2 :=
  ⟨(postTripsBestEffort_returns_plan_on_db_failure c9Env cPrefs "db down" rfl
      (by decide) (by decide) (by decide)).1,
   (postTripsBestEffort_returns_plan_on_db_failure c9Env cPrefs "db down" rfl
      (by decide) (by decide) (by decide)).2.2⟩

/-- Claim C9 counterexample: on valid input (3 days, non-empty interests)
the POST handler of `src/app/api/trips/route.ts` returns 500, not 201,
when the database write fails — persistence is not best-effort in this
variant, so the 201 clause of the claim does not hold unconditionally. -/
theorem postTrips_valid_input_can_return_500 :
    (postTrips c9Env (some cPrefs)).status = 500 ∧
    1 ≤ cPrefs.days ∧ cPrefs.days ≤ 14 ∧ cPrefs.interests ≠ [] :=
  ⟨by rfl, by decide, by decide, by decide⟩

/-- Claim C9 (amended): `POST /trips` returns 400 — independently of the
generation and persistence environments, so no plan generation or write is
attempted — whenever the body is absent, `days` is outside [1, 14], or
`interests` is empty; on valid input it returns 201 with the body carrying
the plan, the preferences, the generation time and the two identifiers,
provided the database write succeeds (a failing write surfaces as 500). -/
theorem postTrips_validation_contract
    (env env2 : PostEnv) (preferences : TripPreferences) :
    ((postTrips env none).status = 400 ∧ (postTrips env none).payload = none) ∧
    ((preferences.days < 1 ∨ 14 < preferences.days) →
      postTrips env2 (some preferences) = postTrips env (some preferences) ∧
      (postTrips env (some preferences)).status = 400 ∧
      (postTrips env (some preferences)).payload = none) ∧
    (preferences.interests = [] →
      postTrips env2 (some preferences) = postTrips env (some preferences) ∧
      (postTrips env (some preferences)).status = 400 ∧
      (postTrips env (some preferences)).payload = none) ∧
    (1 ≤ preferences.days → preferences.days ≤ 14 → preferences.interests ≠ [] →
      env.dbWrite = .ok () →
      postTrips env (some preferences) =
        ⟨201, none,
         some { plan := (generateTripPlan env.ai preferences
                  (getSeasonFromDate (preferences.startDate.getD env.nowDate))
                  (preferences.startDate.getD env.nowDate)),
                preferences := preferences, generatedAt := env.nowMs,
                id := env.cuid1, shareableId := env.cuid2 }⟩) := by
  refine ⟨⟨rfl, rfl⟩, fun h => ?_, fun h => ?_, fun hd1 hd14 hint hdb => ?_⟩
  · by_cases h0 : preferences.days = 0
    · simp only [postTrips, if_pos h0]
      exact ⟨by trivial, by trivial, by trivial⟩
    · have hr : preferences.days < 1 ∨ preferences.days > 14 := by omega
      simp only [postTrips, if_neg h0, if_pos hr]
      exact ⟨by trivial, by trivial, by trivial⟩
  · by_cases h0 : preferences.days = 0
    · simp only [postTrips, if_pos h0]
      exact ⟨by trivial, by trivial, by trivial⟩
    · by_cases hr : preferences.days < 1 ∨ preferences.days > 14
      · simp only [postTrips, if_neg h0, if_pos hr]
        exact ⟨by trivial, by trivial, by trivial⟩
      · have hie : preferences.interests.isEmpty = true := by simp [h]
        simp only [postTrips, if_neg h0, if_neg hr, hie, if_true]
        exact ⟨by trivial, by trivial, by trivial⟩
  · have c1 : ¬ preferences.days = 0 := by omega
    have c2 : ¬ (preferences.days < 1 ∨ preferences.days > 14) := by omega
    have c3 : preferences.interests.isEmpty = false := by
      simpa [List.isEmpty_iff] using hint
    simp only [postTrips, if_neg c1, if_neg c2, c3, Bool.false_eq_true, if_false, hdb]

/-- Claim C9 witness: the amended contract applied at concrete inputs — a
15-day request is rejected with 400, and a valid request with a
successful write yields 201. -/
theorem postTrips_validation_contract_witness :
    (postTrips { c9Env with dbWrite := .ok () }
        (some { cPrefs with days := 15 })).status = 400 ∧
    (postTrips { c9Env with dbWrite := .ok () } (some cPrefs)).status = 201 :=
  ⟨((postTrips_validation_contract { c9Env with dbWrite := .ok () } c9Env
      { cPrefs with days := 15 }).2.1 (by decide)).2.1,
   by rw [(postTrips_validation_contract { c9Env with dbWrite := .ok () } c9Env
      cPrefs).2.2.2 (by decide) (by decide) (by decide) rfl]⟩

/-- Claim C10: the rule-based fallback generator is insensitive to budget,
difficulty, group size and language: two preference records that agree on
days, interests and transport produce identical plans, for any context
strings. -/
theorem generatePlanWithRules_independent_of_budget
    (p1 p2 : TripPreferences) (season : Season) (startDate : CalDate)
    (c1 c2 : String)
    (hdays : p1.days = p2.days) (hints : p1.interests = p2.interests)
    (htrans : p1.transport = p2.transport) :
    generatePlanWithRules p1 season startDate c1 =
      generatePlanWithRules p2 season startDate c2 := by
  unfold generatePlanWithRules generateSafetyNotes generatePackingList
  rw [hdays, hints, htrans]
  rfl

/-- Claim C10 witness: two concrete preference records differing exactly
in budget, difficulty, group size and language yield the same plan. -/
theorem generatePlanWithRules_independent_of_budget_witness :
    generatePlanWithRules c10PrefsA .summer ⟨2026, 7, 1⟩ "ctxA" =
      generatePlanWithRules c10PrefsB .summer ⟨2026, 7, 1⟩ "ctxB" :=
  generatePlanWithRules_independent_of_budget c10PrefsA c10PrefsB .summer
    ⟨2026, 7, 1⟩ "ctxA" "ctxB" rfl rfl rfl
